import Mathlib

/-!
Verification of the AudioScribeTranslate processing pipeline and worker
scaling subsystem.

The definitions below are a shallow embedding of the repository's core:

* `src/audioscribetranslate/core/tasks.py` — the pipeline stages
  (`transcribe_audio`, `translate_transcript`, `summarize_translation`),
  the enqueue functions (`enqueue_translation`, `enqueue_summary`) and the
  full chain (`process_audio_file_chain`).
* `src/audioscribetranslate/core/memory_monitor.py` — the memory-aware
  worker manager (`calculate_optimal_workers`, `start_worker`,
  `stop_worker`, `scale_workers`).

The persistent store is modelled as explicit lists of rows (one list per
table, mirroring the SQLAlchemy models in `models/*.py`); sessions and
commits become explicit state passing, UPDATE statements become maps over
the row lists, and the external collaborators (the transcription service,
the Celery broker, the OS process host) become explicit oracle parameters.
Python `float` metrics are modelled as rationals.
-/

/-- A row of the `audio_files` table (`models/audio_file.py`); only the
columns the core logic reads or writes are kept. -/
structure AudioFileRow where
  id : Nat
  whisper_model : String
  storage_path : Option String
  status : String
  deriving DecidableEq

/-- A row of the `transcripts` table (`models/transcript.py`). -/
structure TranscriptRow where
  id : Nat
  audio_file_id : Nat
  language : Option String
  model_name : String
  status : String
  text : Option String
  audio_duration_seconds : Option ℚ
  processing_seconds : Option ℚ
  text_chars : Option Nat
  real_time_factor : Option ℚ
  deriving DecidableEq

/-- A row of the `translations` table (`models/translation.py`). -/
structure TranslationRow where
  id : Nat
  transcript_id : Nat
  source_language : Option String
  target_language : String
  model_name : String
  status : String
  text : Option String
  processing_seconds : Option ℚ
  text_chars : Option Nat
  deriving DecidableEq

/-- A row of the `summaries` table (`models/summary.py`). -/
structure SummaryRow where
  id : Nat
  source_translation_id : Nat
  base_language : Option String
  target_language : String
  model_name : String
  status : String
  text : Option String
  deriving DecidableEq

/-- The WorkUnit store: one list per table plus the next fresh primary key
(the autoincrement counter; a single counter is shared by all tables, which
is harmless since ids are opaque). -/
structure DB where
  audio_files : List AudioFileRow
  transcripts : List TranscriptRow
  translations : List TranslationRow
  summaries : List SummaryRow
  next_id : Nat
  deriving DecidableEq

/-- Whole-system state: the store plus the log of fire-and-forget task
submissions (`<stage kind>.delay(id)` calls that reached the broker). -/
structure PipeState where
  db : DB
  submitted : List (String × Nat)
  deriving DecidableEq

/-! ### Store primitives

`session.get(Model, id)` becomes a `find?` by primary key; an
`update(...).where(id = i).values(...)` becomes a map over the table. -/

def DB.getAudioFile (db : DB) (i : Nat) : Option AudioFileRow :=
  db.audio_files.find? (fun r => r.id = i)

def DB.getTranscript (db : DB) (i : Nat) : Option TranscriptRow :=
  db.transcripts.find? (fun r => r.id = i)

def DB.getTranslation (db : DB) (i : Nat) : Option TranslationRow :=
  db.translations.find? (fun r => r.id = i)

def DB.getSummary (db : DB) (i : Nat) : Option SummaryRow :=
  db.summaries.find? (fun r => r.id = i)

/-- `select(Transcript).where(Transcript.audio_file_id == audio_id)`. -/
def DB.transcriptsFor (db : DB) (audio_id : Nat) : List TranscriptRow :=
  db.transcripts.filter (fun t => t.audio_file_id = audio_id)

def DB.setAudioStatus (db : DB) (i : Nat) (st : String) : DB :=
  { db with audio_files :=
      db.audio_files.map (fun r => if r.id = i then { r with status := st } else r) }

def DB.updateTranscript (db : DB) (i : Nat) (f : TranscriptRow → TranscriptRow) : DB :=
  { db with transcripts :=
      db.transcripts.map (fun r => if r.id = i then f r else r) }

def DB.updateTranslation (db : DB) (i : Nat) (f : TranslationRow → TranslationRow) : DB :=
  { db with translations :=
      db.translations.map (fun r => if r.id = i then f r else r) }

def DB.updateSummary (db : DB) (i : Nat) (f : SummaryRow → SummaryRow) : DB :=
  { db with summaries :=
      db.summaries.map (fun r => if r.id = i then f r else r) }

def DB.setTranslationStatus (db : DB) (i : Nat) (st : String) : DB :=
  db.updateTranslation i (fun r => { r with status := st })

def DB.setSummaryStatus (db : DB) (i : Nat) (st : String) : DB :=
  db.updateSummary i (fun r => { r with status := st })

/-- `session.add(row); session.commit()` for a fresh row: append and bump
the autoincrement counter. -/
def DB.addTranscript (db : DB) (t : TranscriptRow) : DB :=
  { db with transcripts := db.transcripts ++ [t], next_id := db.next_id + 1 }

def DB.addTranslation (db : DB) (t : TranslationRow) : DB :=
  { db with translations := db.translations ++ [t], next_id := db.next_id + 1 }

def DB.addSummary (db : DB) (t : SummaryRow) : DB :=
  { db with summaries := db.summaries ++ [t], next_id := db.next_id + 1 }

/-! ### Python truthiness helpers -/

/-- Truthiness of an `Optional[str]`: `None` and `""` are falsy. -/
def pyTruthy : Option String → Bool
  | none => false
  | some s => s ≠ ""

/-- Python `x or d` for an `Optional[str]` `x` and default `d`. -/
def pyStrOr (o : Option String) (d : String) : String :=
  if pyTruthy o then o.getD "" else d

/-! ### Transcription stage (`transcribe_audio`, tasks.py lines 106-258)

The external collaborators of one invocation are collected in
`TranscribeEnv`: the `(text, language, error)` triple returned by
`safe_transcribe` (which never raises), the wall-clock processing time,
the result of the duration probe `get_audio_duration_seconds`, and
whether the auto-chain `translate_transcript.delay` submission succeeds. -/

structure TranscribeEnv where
  text : Option String
  language : Option String
  error : Option String
  proc_seconds : ℚ
  duration : Option ℚ
  auto_submit_ok : Bool
  deriving DecidableEq

/-- `if err or not text:` — the fallback trigger (tasks.py line 185). -/
def fallbackTriggered (env : TranscribeEnv) : Bool :=
  pyTruthy env.error || !pyTruthy env.text

/-- `f"Transcript fallback for audio {audio_id}"` (tasks.py line 192). -/
def fallbackText (audio_id : Nat) : String :=
  "Transcript fallback for audio " ++ toString audio_id

/-- The text written to the Transcript row. -/
def storedText (env : TranscribeEnv) (audio_id : Nat) : String :=
  if fallbackTriggered env then fallbackText audio_id else env.text.getD ""

/-- The language written to the Transcript row:
`lang = lang or "unknown"` runs only in the fallback branch. -/
def storedLanguage (env : TranscribeEnv) : Option String :=
  if fallbackTriggered env then some (pyStrOr env.language "unknown") else env.language

/-- `text_chars = len(text) if text else None`, recomputed from the
placeholder in the fallback branch. -/
def storedTextChars (env : TranscribeEnv) (audio_id : Nat) : Option Nat :=
  if fallbackTriggered env then some (fallbackText audio_id).length
  else
    match env.text with
    | some t => if t = "" then none else some t.length
    | none => none

/-- The duration lookup runs only when `audio.storage_path` is truthy. -/
def probedDuration (env : TranscribeEnv) (audio : AudioFileRow) : Option ℚ :=
  if pyTruthy audio.storage_path then env.duration else none

/-- `rtf = (proc_sec / audio_dur) if audio_dur and audio_dur > 0 else None`. -/
def realTimeFactor (env : TranscribeEnv) (audio : AudioFileRow) : Option ℚ :=
  match probedDuration env audio with
  | some d => if 0 < d then some (env.proc_seconds / d) else none
  | none => none

/-- ASCII lowercase (`str.lower()` restricted to ASCII, which is adequate
for the ISO language codes this code compares against `"en"`); written on
the character list so it computes by structural recursion. -/
def pyLower (s : String) : String :=
  ⟨s.data.map Char.toLower⟩

/-- `if lang and lang.lower() != "en":` — the auto-chain trigger
(tasks.py line 221). -/
def autoChainCond (lang : Option String) : Bool :=
  pyTruthy lang && pyLower (lang.getD "") ≠ "en"

/-- The Celery task `transcribe_audio(audio_id)` (tasks.py lines 106-258).
Silent no-op when the audio row is missing; idempotency guard on an
existing Transcript; fallback to a placeholder on inference error or empty
text; always `done` on the non-exception path; auto-chains a queued
Translation (target "en") when the stored language is truthy and not "en",
swallowing a failed task submission (the committed Translation row
survives the post-commit rollback). -/
def transcribe_audio (env : TranscribeEnv) (audio_id : Nat) (s : PipeState) : PipeState :=
  match s.db.getAudioFile audio_id with
  | none => s
  | some audio =>
    if s.db.transcriptsFor audio_id ≠ [] then s
    else
      let db := s.db.setAudioStatus audio_id "processing"
      let tid := db.next_id
      let db := db.addTranscript
        { id := tid, audio_file_id := audio_id, language := none,
          model_name := audio.whisper_model, status := "processing", text := none,
          audio_duration_seconds := none, processing_seconds := none,
          text_chars := none, real_time_factor := none }
      let lang := storedLanguage env
      let db := db.updateTranscript tid (fun t =>
        { t with
          text := some (storedText env audio_id),
          language := lang,
          status := "done",
          processing_seconds := some env.proc_seconds,
          text_chars := storedTextChars env audio_id,
          audio_duration_seconds := probedDuration env audio,
          real_time_factor := realTimeFactor env audio })
      let db := db.setAudioStatus audio_id "done"
      if autoChainCond lang then
        let trid := db.next_id
        let db := db.addTranslation
          { id := trid, transcript_id := tid, source_language := lang,
            target_language := "en", model_name := "mt_model", status := "queued",
            text := none, processing_seconds := none, text_chars := none }
        if env.auto_submit_ok then
          { db := db, submitted := s.submitted ++ [("translate", trid)] }
        else
          { db := db, submitted := s.submitted }
      else
        { db := db, submitted := s.submitted }

/-! ### Translation stage (`translate_transcript`, tasks.py lines 290-365)

The placeholder "inference" cannot fail, so only the non-exception path is
reachable; the elapsed wall time is the oracle `proc_seconds`. -/

/-- The Celery task `translate_transcript(translation_id)`: no-op when the
row is missing, otherwise unconditionally sets the row to `processing` and
then overwrites text, metrics and status to `done` with a fresh
placeholder — there is no guard on the row's previous status. -/
def translate_transcript (proc_seconds : ℚ) (translation_id : Nat) (s : PipeState) :
    PipeState :=
  match s.db.getTranslation translation_id with
  | none => s
  | some translation_row =>
    let db := s.db.updateTranslation translation_id (fun r => { r with status := "processing" })
    let placeholder := "Translation placeholder (target=" ++ translation_row.target_language ++ ")"
    let db := db.updateTranslation translation_id (fun r =>
      { r with text := some placeholder, status := "done",
               processing_seconds := some proc_seconds,
               text_chars := some placeholder.length })
    { s with db := db }

/-! ### Summarization stage (`summarize_translation`, tasks.py lines 425-487) -/

/-- The Celery task `summarize_translation(summary_id)`: same shape as the
translation stage one level further down the chain; only `text` and
`status` are written (the Summary model has no metric columns). -/
def summarize_translation (summary_id : Nat) (s : PipeState) : PipeState :=
  match s.db.getSummary summary_id with
  | none => s
  | some summary_row =>
    let db := s.db.updateSummary summary_id (fun r => { r with status := "processing" })
    let placeholder := "Summary placeholder (target=" ++ summary_row.target_language ++ ")"
    let db := db.updateSummary summary_id (fun r =>
      { r with text := some placeholder, status := "done" })
    { s with db := db }

/-! ### Enqueue functions (tasks.py lines 368-419 and 490-538)

`submit_ok` is the oracle for whether the `.delay(...)` call reaches the
broker or throws. -/

/-- `enqueue_translation(transcript_id, target_language, model_name)`:
refuses (returning `(false, none)` and writing nothing) when the parent
Transcript is missing or not `done`; otherwise commits a `queued`
Translation and submits the task, marking the committed row `failed` but
still returning its id when the submission throws. -/
def enqueue_translation (submit_ok : Bool) (transcript_id : Nat)
    (target_language : String) (model_name : Option String) (s : PipeState) :
    (Bool × Option Nat) × PipeState :=
  match s.db.getTranscript transcript_id with
  | none => ((false, none), s)
  | some transcript =>
    if transcript.status ≠ "done" then ((false, none), s)
    else
      let rid := s.db.next_id
      let db := s.db.addTranslation
        { id := rid, transcript_id := transcript_id,
          source_language := transcript.language,
          target_language := target_language,
          model_name := pyStrOr model_name "mt_model", status := "queued",
          text := none, processing_seconds := none, text_chars := none }
      if submit_ok then
        ((true, some rid), { db := db, submitted := s.submitted ++ [("translate", rid)] })
      else
        ((false, some rid),
          { db := db.setTranslationStatus rid "failed", submitted := s.submitted })

/-- `enqueue_summary(translation_id, target_language, model_name)`:
the same shape with parent Translation and a `queued` Summary
(`base_language` copied from the parent's `target_language`). -/
def enqueue_summary (submit_ok : Bool) (translation_id : Nat)
    (target_language : String) (model_name : Option String) (s : PipeState) :
    (Bool × Option Nat) × PipeState :=
  match s.db.getTranslation translation_id with
  | none => ((false, none), s)
  | some translation =>
    if translation.status ≠ "done" then ((false, none), s)
    else
      let rid := s.db.next_id
      let db := s.db.addSummary
        { id := rid, source_translation_id := translation_id,
          base_language := some translation.target_language,
          target_language := target_language,
          model_name := pyStrOr model_name "summ_model", status := "queued",
          text := none }
      if submit_ok then
        ((true, some rid), { db := db, submitted := s.submitted ++ [("summarize", rid)] })
      else
        ((false, some rid),
          { db := db.setSummaryStatus rid "failed", submitted := s.submitted })

/-! ### Full-chain mode (`process_audio_file_chain`, tasks.py lines 583-681) -/

/-- The task's result dictionary. -/
structure ChainResult where
  audio_id : Nat
  transcript_id : Option Nat
  translation_id : Option Nat
  summary_id : Option Nat
  status : String
  errors : List String
  deriving DecidableEq

/-- Oracles for one full-chain invocation: the transcription-stage
environment, whether each in-chain `.delay` submission succeeds, and the
translation stage's elapsed time. -/
structure ChainEnv where
  tenv : TranscribeEnv
  translate_submit_ok : Bool
  summary_submit_ok : Bool
  translate_proc_seconds : ℚ
  deriving DecidableEq

/-- The Celery task `process_audio_file_chain(audio_id, target_language)`:
runs transcription, then (only when the transcript's language differs from
the chain target) translation and then summarization, all in one
invocation; any raised step aborts the chain with `status = "failed"` and
the exception text in `errors`, while a failed enqueue merely appends an
error message and the chain still finishes `"completed"`. The transcript
lookup is `scalar_one_or_none`, which raises when several transcripts
share the parent. -/
def process_audio_file_chain (cenv : ChainEnv) (audio_id : Nat)
    (target_language : String) (s : PipeState) : ChainResult × PipeState :=
  let r0 : ChainResult :=
    { audio_id := audio_id, transcript_id := none, translation_id := none,
      summary_id := none, status := "processing", errors := [] }
  let s1 := transcribe_audio cenv.tenv audio_id s
  match s1.db.transcriptsFor audio_id with
  | [] =>
    ({ r0 with
        status := "failed",
        errors := ["Транскрибирование не удалось для аудио ID=" ++ toString audio_id] }, s1)
  | _ :: _ :: _ =>
    ({ r0 with
        status := "failed",
        errors := ["Multiple rows were found when one or none was required"] }, s1)
  | [transcript] =>
    if transcript.status ≠ "done" then
      ({ r0 with
          status := "failed",
          errors := ["Транскрибирование не удалось для аудио ID=" ++ toString audio_id] }, s1)
    else
      let r1 := { r0 with transcript_id := some transcript.id }
      if transcript.language ≠ some target_language then
        let step := enqueue_translation cenv.translate_submit_ok transcript.id
          target_language none s1
        let s2 := step.2
        match step.1 with
        | (true, some translation_id) =>
          if translation_id ≠ 0 then
            let s3 := translate_transcript cenv.translate_proc_seconds translation_id s2
            match s3.db.getTranslation translation_id with
            | some translation =>
              if translation.status = "done" then
                let r2 := { r1 with translation_id := some translation_id }
                let step2 := enqueue_summary cenv.summary_submit_ok translation_id
                  target_language none s3
                let s4 := step2.2
                match step2.1 with
                | (true, some summary_id) =>
                  if summary_id ≠ 0 then
                    let s5 := summarize_translation summary_id s4
                    match s5.db.getSummary summary_id with
                    | some summary =>
                      if summary.status = "done" then
                        ({ r2 with
                            summary_id := some summary_id,
                            status := "completed" }, s5)
                      else
                        ({ r2 with
                            status := "failed",
                            errors := ["Саммари не удалось для перевода ID=" ++
                              toString translation_id] }, s5)
                    | none =>
                      ({ r2 with
                          status := "failed",
                          errors := ["Саммари не удалось для перевода ID=" ++
                            toString translation_id] }, s5)
                  else
                    ({ r2 with
                        status := "completed",
                        errors := ["Не удалось создать задачу саммари"] }, s4)
                | _ =>
                  ({ r2 with
                      status := "completed",
                      errors := ["Не удалось создать задачу саммари"] }, s4)
              else
                ({ r1 with
                    status := "failed",
                    errors := ["Перевод не удался для транскрипта ID=" ++
                      toString transcript.id] }, s3)
            | none =>
              ({ r1 with
                  status := "failed",
                  errors := ["Перевод не удался для транскрипта ID=" ++
                    toString transcript.id] }, s3)
          else
            ({ r1 with
                status := "completed",
                errors := ["Не удалось создать задачу перевода"] }, s2)
        | _ =>
          ({ r1 with
              status := "completed",
              errors := ["Не удалось создать задачу перевода"] }, s2)
      else
        ({ r1 with status := "completed" }, s1)

/-! ### Memory monitor (`memory_monitor.py`)

`MemoryInfo` mirrors the dataclass (lines 36-52); the configuration fields
read by `calculate_optimal_workers` are collected in `MonitorConfig`.
Memory amounts are rationals (Python floats); worker counts are integers
(Python `int(...)` truncates toward zero, modelled by `pyInt`). -/

structure MemoryInfo where
  total_gb : ℚ
  available_gb : ℚ
  used_gb : ℚ
  percent_used : ℚ
  free_gb : ℚ
  deriving DecidableEq

structure MonitorConfig where
  memory_threshold_gb : ℚ
  max_workers : ℤ
  min_workers : ℤ
  worker_memory_limit_gb : ℚ
  auto_scaling_enabled : Bool
  deriving DecidableEq

/-- Python `int(q)` on a float/rational: truncation toward zero. -/
def pyInt (q : ℚ) : ℤ :=
  if 0 ≤ q then ⌊q⌋ else ⌈q⌉

/-- `MemoryMonitor.calculate_optimal_workers` (memory_monitor.py lines
181-218): configured minimum when auto-scaling is off; otherwise the
memory budget `available − 4` divided by the per-worker limit, clamped to
`[min_workers, max_workers]`, with one extra decrement (never below
`min_workers`) when available memory is under the threshold. -/
def calculate_optimal_workers (cfg : MonitorConfig) (memory_info : MemoryInfo) : ℤ :=
  if !cfg.auto_scaling_enabled then cfg.min_workers
  else
    let available_for_workers := memory_info.available_gb - 4
    let workers_by_memory := pyInt (available_for_workers / cfg.worker_memory_limit_gb)
    let optimal_workers := max cfg.min_workers (min workers_by_memory cfg.max_workers)
    if memory_info.available_gb < cfg.memory_threshold_gb then
      max cfg.min_workers (optimal_workers - 1)
    else
      optimal_workers

/-- The spec's formula for `target_worker_count` (spec §4.3), written with
a true floor: `clamp(floor((available − 4) / per_worker_limit), min, max)`
with the low-memory step-down. Kept separate from
`calculate_optimal_workers` so the two can be compared. -/
def target_worker_count_spec (cfg : MonitorConfig) (memory_info : MemoryInfo) : ℤ :=
  if !cfg.auto_scaling_enabled then cfg.min_workers
  else
    let by_memory := ⌊(memory_info.available_gb - 4) / cfg.worker_memory_limit_gb⌋
    let target := max cfg.min_workers (min by_memory cfg.max_workers)
    if memory_info.available_gb < cfg.memory_threshold_gb then
      max cfg.min_workers (target - 1)
    else
      target

/-! ### Worker pool (`memory_monitor.py` lines 220-357)

A live worker is a `subprocess.Popen` handle; the only behaviour the
manager's control flow observes is whether the process exits within the
10-second grace period after SIGTERM (`graceful_exit`); SIGKILL always
terminates it. `_active_workers` is the manager's list, in start order.
`start_worker`'s spawn is an oracle `spawn : Nat → Option Proc`
(`None` models a `subprocess.Popen` failure, logged and swallowed). -/

structure Proc where
  pid : Nat
  graceful_exit : Bool
  deriving DecidableEq

/-- Which shutdown path `stop_worker` took. -/
inductive StopPath where
  | graceful : StopPath
  | forced : StopPath
  deriving DecidableEq

/-- `MemoryMonitor.start_worker` (lines 220-262): spawn a worker process
and append it to `_active_workers`; a spawn failure is logged and leaves
the list unchanged. -/
def start_worker (spawn : Nat → Option Proc) (worker_id : Nat)
    (workers : List Proc) : List Proc :=
  match spawn worker_id with
  | some process => workers ++ [process]
  | none => workers

/-- `MemoryMonitor.stop_worker` (lines 264-302): SIGTERM, wait up to 10 s,
SIGKILL on timeout; afterwards remove the handle from `_active_workers`
(first occurrence, like `list.remove`, guarded by membership). Returns
which path was taken. -/
def stop_worker (process : Proc) (workers : List Proc) : StopPath × List Proc :=
  let path := if process.graceful_exit then StopPath.graceful else StopPath.forced
  (path, if process ∈ workers then workers.erase process else workers)

/-- The stop loop of `scale_workers` (lines 330-337): `n` times, stop the
last worker of the list if the list is nonempty. -/
def stopLastN : Nat → List Proc → List Proc
  | 0, workers => workers
  | n + 1, workers =>
    match workers.getLast? with
    | some worker => stopLastN n (stop_worker worker workers).2
    | none => workers

/-- `MemoryMonitor.scale_workers(target_workers)` (lines 304-337): no-op
at the target; below it, start workers `current+1 … target` one at a
time (in start order); above it, stop `current − target` workers taking
the most recently added first (LIFO, from the end of the list). -/
def scale_workers (spawn : Nat → Option Proc) (target_workers : Nat)
    (workers : List Proc) : List Proc :=
  let current_workers := workers.length
  if current_workers = target_workers then workers
  else if current_workers < target_workers then
    (List.range' current_workers (target_workers - current_workers)).foldl
      (fun acc i => start_worker spawn (i + 1) acc) workers
  else
    stopLastN (current_workers - target_workers) workers

/-! ### Derived row shapes and concrete fixtures -/


/-- The Transcript row as it stands at the end of a fresh (non-skipped)
transcription run. -/
def finalTranscript (env : TranscribeEnv) (audio_id : Nat) (s : PipeState)
    (audio : AudioFileRow) : TranscriptRow :=
  { id := s.db.next_id, audio_file_id := audio_id,
    language := storedLanguage env, model_name := audio.whisper_model,
    status := "done", text := some (storedText env audio_id),
    audio_duration_seconds := probedDuration env audio,
    processing_seconds := some env.proc_seconds,
    text_chars := storedTextChars env audio_id,
    real_time_factor := realTimeFactor env audio }

def wAudio : AudioFileRow :=
  { id := 1, whisper_model := "base", storage_path := some "base/1/f.wav",
    status := "uploaded" }

def wState : PipeState :=
  { db := { audio_files := [wAudio], transcripts := [], translations := [],
            summaries := [], next_id := 1 },
    submitted := [] }

def wEnvFr : TranscribeEnv :=
  { text := some "bonjour", language := some "fr", error := none,
    proc_seconds := 3, duration := some 2, auto_submit_ok := true }

def wEnvRu : TranscribeEnv :=
  { text := some "привет", language := some "ru", error := none,
    proc_seconds := 2, duration := some 2, auto_submit_ok := true }

def wEnvErr : TranscribeEnv :=
  { text := none, language := none, error := some "synthetic failure",
    proc_seconds := 2, duration := none, auto_submit_ok := true }

def wTranscriptDone : TranscriptRow :=
  { id := 1, audio_file_id := 1, language := some "fr", model_name := "base",
    status := "done", text := some "bonjour", audio_duration_seconds := some 2,
    processing_seconds := some 3, text_chars := some 7,
    real_time_factor := some (3 / 2) }

def wStateT : PipeState :=
  { db := { audio_files := [{ wAudio with status := "done" }],
            transcripts := [wTranscriptDone], translations := [],
            summaries := [], next_id := 2 },
    submitted := [] }

def wChainEnvRu : ChainEnv :=
  { tenv := wEnvRu, translate_submit_ok := true, summary_submit_ok := true,
    translate_proc_seconds := 1 }

def wTranscriptProc : TranscriptRow :=
  { id := 1, audio_file_id := 1, language := none, model_name := "base",
    status := "processing", text := none, audio_duration_seconds := none,
    processing_seconds := none, text_chars := none, real_time_factor := none }

def wTranslationProc : TranslationRow :=
  { id := 2, transcript_id := 1, source_language := some "fr",
    target_language := "en", model_name := "mt_model", status := "processing",
    text := none, processing_seconds := none, text_chars := none }

def wStateProc : PipeState :=
  { db := { audio_files := [{ wAudio with status := "processing" }],
            transcripts := [wTranscriptProc], translations := [wTranslationProc],
            summaries := [], next_id := 3 },
    submitted := [] }

def wTranslationDone : TranslationRow :=
  { id := 2, transcript_id := 1, source_language := some "fr",
    target_language := "en", model_name := "mt_model", status := "done",
    text := some "Translation placeholder (target=en)",
    processing_seconds := some 1, text_chars := some 35 }

def wStateTU : PipeState :=
  { db := { audio_files := [{ wAudio with status := "done" }],
            transcripts := [wTranscriptDone], translations := [wTranslationDone],
            summaries := [], next_id := 3 },
    submitted := [] }

def wTranslationFailed : TranslationRow :=
  { id := 2, transcript_id := 1, source_language := some "fr",
    target_language := "en", model_name := "mt_model", status := "failed",
    text := some "stale text", processing_seconds := none, text_chars := none }

def wSummaryDone : SummaryRow :=
  { id := 3, source_translation_id := 2, base_language := some "en",
    target_language := "ru", model_name := "summ_model", status := "done",
    text := some "stale summary" }

def wStateC9 : PipeState :=
  { db := { audio_files := [{ wAudio with status := "done" }],
            transcripts := [wTranscriptDone],
            translations := [wTranslationFailed], summaries := [wSummaryDone],
            next_id := 4 },
    submitted := [] }

def wCfg : MonitorConfig :=
  { memory_threshold_gb := 2, max_workers := 8, min_workers := 1,
    worker_memory_limit_gb := 2, auto_scaling_enabled := true }

def wMemHigh : MemoryInfo :=
  { total_gb := 64, available_gb := 16, used_gb := 48, percent_used := 75,
    free_gb := 16 }

def wMemMid : MemoryInfo :=
  { total_gb := 64, available_gb := 8, used_gb := 56, percent_used := 87,
    free_gb := 8 }

def wProc (i : Nat) : Proc := { pid := 100 + i, graceful_exit := true }

def wSpawn : Nat → Option Proc := fun i => some (wProc i)

def wProcStuck : Proc := { pid := 9, graceful_exit := false }

/-! ### Helper lemmas -/


lemma find?_audio_map (g : AudioFileRow → AudioFileRow)
    (hg : ∀ r, (g r).id = r.id) (i : Nat) (l : List AudioFileRow) :
    (l.map g).find? (fun r => r.id = i) = (l.find? (fun r => r.id = i)).map g := by
  induction l with
  | nil => rfl
  | cons a l ih => by_cases h : a.id = i <;> simp [List.find?_cons, hg, h, ih]

lemma transcribe_audio_skip (env : TranscribeEnv) (audio_id : Nat) (s : PipeState)
    (h : ∃ t ∈ s.db.transcripts, t.audio_file_id = audio_id) :
    transcribe_audio env audio_id s = s := by
  obtain ⟨t, ht, hta⟩ := h
  have hne : s.db.transcriptsFor audio_id ≠ [] := by
    apply List.ne_nil_of_mem (a := t)
    simp [DB.transcriptsFor, List.mem_filter, ht, hta]
  unfold transcribe_audio
  cases hfind : s.db.getAudioFile audio_id with
  | none => rfl
  | some audio => simp [hne]

lemma transcribe_audio_transcriptsFor (env : TranscribeEnv) (audio_id : Nat)
    (s : PipeState) (audio : AudioFileRow)
    (h1 : s.db.getAudioFile audio_id = some audio)
    (h2 : s.db.transcriptsFor audio_id = []) :
    (transcribe_audio env audio_id s).db.transcriptsFor audio_id =
      [finalTranscript env audio_id s audio] := by
  have hall : ∀ t ∈ s.db.transcripts, ¬(t.audio_file_id = audio_id) := by
    simpa [DB.transcriptsFor, List.filter_eq_nil_iff] using h2
  unfold transcribe_audio
  rw [h1]
  simp only [h2, ne_eq, not_true_eq_false, if_false]
  by_cases hc : autoChainCond (storedLanguage env) <;>
    by_cases hs : env.auto_submit_ok <;>
      simp [hc, hs, DB.transcriptsFor, DB.addTranslation, DB.setAudioStatus,
        DB.updateTranscript, DB.addTranscript, List.filter_append,
        List.filter_map, finalTranscript] <;>
      (intro t htm; by_cases hid : t.id = s.db.next_id <;> simp [hid] <;>
        exact hall t htm)

lemma transcribe_audio_getAudioFile (env : TranscribeEnv) (audio_id : Nat)
    (s : PipeState) (audio : AudioFileRow)
    (h1 : s.db.getAudioFile audio_id = some audio)
    (h2 : s.db.transcriptsFor audio_id = []) :
    (transcribe_audio env audio_id s).db.getAudioFile audio_id =
      some { audio with status := "done" } := by
  have hid : audio.id = audio_id := by
    have := List.find?_some h1
    simpa using this
  unfold transcribe_audio
  rw [h1]
  simp only [h2, ne_eq, not_true_eq_false, if_false]
  by_cases hc : autoChainCond (storedLanguage env) <;>
    by_cases hs : env.auto_submit_ok <;>
      simp only [hc, hs, if_true, if_false, Bool.false_eq_true] <;>
      simp only [DB.getAudioFile, DB.addTranslation, DB.setAudioStatus,
        DB.updateTranscript, DB.addTranscript] <;>
      rw [find?_audio_map _ (by intro r; by_cases h : r.id = audio_id <;> simp [h]),
          find?_audio_map _ (by intro r; by_cases h : r.id = audio_id <;> simp [h])] <;>
      rw [show s.db.audio_files.find? (fun r => r.id = audio_id) = some audio from h1] <;>
      simp [hid]

lemma transcribe_audio_translations_chained (env : TranscribeEnv) (audio_id : Nat)
    (s : PipeState) (audio : AudioFileRow)
    (h1 : s.db.getAudioFile audio_id = some audio)
    (h2 : s.db.transcriptsFor audio_id = [])
    (hc : autoChainCond (storedLanguage env) = true) :
    (transcribe_audio env audio_id s).db.translations =
      s.db.translations ++
        [{ id := s.db.next_id + 1, transcript_id := s.db.next_id,
           source_language := storedLanguage env, target_language := "en",
           model_name := "mt_model", status := "queued", text := none,
           processing_seconds := none, text_chars := none }] := by
  unfold transcribe_audio
  rw [h1]
  simp only [h2, ne_eq, not_true_eq_false, if_false]
  by_cases hs : env.auto_submit_ok <;>
    simp [hc, hs, DB.addTranslation, DB.setAudioStatus, DB.updateTranscript,
      DB.addTranscript]

lemma transcribe_audio_translations_unchained (env : TranscribeEnv) (audio_id : Nat)
    (s : PipeState) (audio : AudioFileRow)
    (h1 : s.db.getAudioFile audio_id = some audio)
    (h2 : s.db.transcriptsFor audio_id = [])
    (hc : autoChainCond (storedLanguage env) = false) :
    (transcribe_audio env audio_id s).db.translations = s.db.translations := by
  unfold transcribe_audio
  rw [h1]
  simp only [h2, ne_eq, not_true_eq_false, if_false]
  simp [hc, DB.setAudioStatus, DB.updateTranscript, DB.addTranscript]

lemma transcribe_audio_submitted (env : TranscribeEnv) (audio_id : Nat)
    (s : PipeState) (audio : AudioFileRow)
    (h1 : s.db.getAudioFile audio_id = some audio)
    (h2 : s.db.transcriptsFor audio_id = []) :
    (transcribe_audio env audio_id s).submitted =
      (if autoChainCond (storedLanguage env) && env.auto_submit_ok then
        s.submitted ++ [("translate", s.db.next_id + 1)]
      else s.submitted) := by
  unfold transcribe_audio
  rw [h1]
  simp only [h2, ne_eq, not_true_eq_false, if_false]
  by_cases hc : autoChainCond (storedLanguage env) <;>
    by_cases hs : env.auto_submit_ok <;>
      simp [hc, hs, DB.addTranslation, DB.setAudioStatus, DB.updateTranscript,
        DB.addTranscript]

lemma transcribe_audio_summaries (env : TranscribeEnv) (audio_id : Nat)
    (s : PipeState) :
    (transcribe_audio env audio_id s).db.summaries = s.db.summaries := by
  unfold transcribe_audio
  cases hfind : s.db.getAudioFile audio_id with
  | none => rfl
  | some audio =>
    by_cases hne : s.db.transcriptsFor audio_id = []
    · simp only [hne, ne_eq, not_true_eq_false, if_false]
      by_cases hc : autoChainCond (storedLanguage env) <;>
        by_cases hs : env.auto_submit_ok <;>
          simp [hc, hs, DB.addTranslation, DB.setAudioStatus, DB.updateTranscript,
            DB.addTranscript]
    · simp [hne]

lemma clamp_pyInt_eq_clamp_floor (q : ℚ) (mn mx : ℤ) (hmn : 0 ≤ mn) :
    max mn (min (pyInt q) mx) = max mn (min ⌊q⌋ mx) := by
  by_cases h : 0 ≤ q
  · simp [pyInt, h]
  · push_neg at h
    have h1 : ⌈q⌉ ≤ 0 := Int.ceil_le.mpr (by exact_mod_cast h.le)
    have h2 : ⌊q⌋ ≤ 0 := Int.floor_nonpos h.le
    simp only [pyInt, if_neg (not_le.mpr h)]
    omega

lemma pyInt_mono {a b : ℚ} (h : a ≤ b) : pyInt a ≤ pyInt b := by
  unfold pyInt
  by_cases ha : 0 ≤ a <;> by_cases hb : 0 ≤ b
  · simpa [ha, hb] using Int.floor_mono h
  · exact absurd (le_trans ha h) hb
  · simp only [ha, hb, if_true, if_false]
    calc ⌈a⌉ ≤ 0 := Int.ceil_le.mpr (by exact_mod_cast (le_of_not_le ha))
      _ ≤ ⌊b⌋ := Int.le_floor.mpr (by exact_mod_cast hb)
  · simpa [ha, hb] using Int.ceil_mono h

lemma erase_of_nodup_getLast (l : List Proc) (w : Proc) (hl : l.Nodup)
    (hlast : l.getLast? = some w) : l.erase w = l.dropLast := by
  have hdrop : l.dropLast ++ [w] = l :=
    List.dropLast_append_getLast? w hlast
  have hnotmem : w ∉ l.dropLast := by
    rw [← hdrop] at hl
    intro hmem
    exact (List.disjoint_of_nodup_append hl) hmem (List.mem_singleton_self w)
  conv_lhs => rw [← hdrop]
  rw [List.erase_append_right _ hnotmem, List.erase_cons_head, List.append_nil]

lemma stopLastN_eq_take (n : Nat) : ∀ (l : List Proc), l.Nodup →
    stopLastN n l = l.take (l.length - n) := by
  induction n with
  | zero => intro l hl; simp [stopLastN]
  | succ n ih =>
    intro l hl
    cases hlast : l.getLast? with
    | none =>
      have : l = [] := List.getLast?_eq_none_iff.mp hlast
      subst this
      simp [stopLastN]
    | some w =>
      have hmem : w ∈ l := List.mem_of_getLast?_eq_some hlast
      have herase : l.erase w = l.dropLast := erase_of_nodup_getLast l w hl hlast
      have hnd : l.dropLast.Nodup := List.Nodup.sublist (List.dropLast_sublist l) hl
      rw [stopLastN, hlast]
      simp only [stop_worker, hmem, if_true, herase]
      rw [ih _ hnd]
      have hlen : l.dropLast.length = l.length - 1 := List.length_dropLast l
      have hdrop : l.dropLast ++ [w] = l :=
        List.dropLast_append_getLast? w hlast
      rw [hlen]
      conv_rhs => rw [← hdrop]
      have hlen2 : (l.dropLast ++ [w]).length = l.length := by rw [hdrop]
      rw [List.take_append_of_le_length (by omega)]
      congr 1
      omega

lemma foldl_start_worker (spawn : Nat → Option Proc) (f : Nat → Proc)
    (hspawn : ∀ i, spawn i = some (f i)) :
    ∀ (l : List Nat) (acc : List Proc),
      l.foldl (fun acc i => start_worker spawn (i + 1) acc) acc =
        acc ++ l.map (fun i => f (i + 1)) := by
  intro l
  induction l with
  | nil => intro acc; simp
  | cons a l ih =>
    intro acc
    simp only [List.foldl_cons, List.map_cons]
    rw [ih, start_worker, hspawn (a + 1)]
    simp

/-! ### The claims -/


/-- Claim C1 (transcription-stage idempotency): if at least one Transcript
row with the given parent id already exists when `transcribe_audio` is
invoked, the invocation returns with the whole state (store and submission
log) unchanged; consequently, for a WorkUnit that exists and has no
Transcript yet, invoking the stage twice yields exactly one Transcript row
for that WorkUnit and the second invocation changes nothing — neither the
row's fields nor the WorkUnit's status. -/
theorem transcription_stage_idempotent (env env2 : TranscribeEnv) (audio_id : Nat)
    (s : PipeState) :
    ((∃ t ∈ s.db.transcripts, t.audio_file_id = audio_id) →
      transcribe_audio env audio_id s = s) ∧
    (∀ audio, s.db.getAudioFile audio_id = some audio →
      s.db.transcriptsFor audio_id = [] →
      ((transcribe_audio env audio_id s).db.transcriptsFor audio_id).length = 1 ∧
      transcribe_audio env2 audio_id (transcribe_audio env audio_id s) =
        transcribe_audio env audio_id s) := by
  refine ⟨transcribe_audio_skip env audio_id s, ?_⟩
  intro audio h1 h2
  have hfor := transcribe_audio_transcriptsFor env audio_id s audio h1 h2
  refine ⟨by rw [hfor]; rfl, ?_⟩
  apply transcribe_audio_skip
  refine ⟨finalTranscript env audio_id s audio, ?_, rfl⟩
  have hmem : finalTranscript env audio_id s audio ∈
      (transcribe_audio env audio_id s).db.transcriptsFor audio_id := by
    rw [hfor]; exact List.mem_singleton_self _
  exact (List.mem_filter.mp hmem).1

/-- Concrete instance of C1: a state whose WorkUnit 1 already has a transcript is left untouched, and a fresh WorkUnit transcribed twice has exactly one transcript. -/
theorem transcription_stage_idempotent_witness :
    transcribe_audio wEnvRu 1 wStateT = wStateT ∧
    ((transcribe_audio wEnvFr 1 wState).db.transcriptsFor 1).length = 1 ∧
    transcribe_audio wEnvRu 1 (transcribe_audio wEnvFr 1 wState) =
      transcribe_audio wEnvFr 1 wState :=
  ⟨(transcription_stage_idempotent wEnvRu wEnvRu 1 wStateT).1
      ⟨wTranscriptDone, by simp [wStateT], rfl⟩,
   ((transcription_stage_idempotent wEnvFr wEnvRu 1 wState).2 wAudio rfl rfl).1,
   ((transcription_stage_idempotent wEnvFr wEnvRu 1 wState).2 wAudio rfl rfl).2⟩

/-- Claim C2 (transcription fallback): on an existing WorkUnit with no
prior Transcript, whenever the transcribe operation reports an error
(non-empty error message) or returns empty/missing text, the stage still
terminates with exactly one Transcript for the WorkUnit, in status "done",
whose text is the placeholder `"Transcript fallback for audio <id>"`, with
`text_chars` recomputed as the placeholder's length, language equal to the
detected one or `"unknown"` when none was detected, and the WorkUnit ends
in status "done" — never "failed". -/
theorem transcription_fallback_invariant (env : TranscribeEnv) (audio_id : Nat)
    (s : PipeState) (audio : AudioFileRow)
    (h1 : s.db.getAudioFile audio_id = some audio)
    (h2 : s.db.transcriptsFor audio_id = [])
    (hdeg : pyTruthy env.error = true ∨ env.text = none ∨ env.text = some "") :
    (transcribe_audio env audio_id s).db.transcriptsFor audio_id =
      [{ id := s.db.next_id, audio_file_id := audio_id,
         language := some (pyStrOr env.language "unknown"),
         model_name := audio.whisper_model, status := "done",
         text := some (fallbackText audio_id),
         audio_duration_seconds := probedDuration env audio,
         processing_seconds := some env.proc_seconds,
         text_chars := some (fallbackText audio_id).length,
         real_time_factor := realTimeFactor env audio }] ∧
    (env.language = none → pyStrOr env.language "unknown" = "unknown") ∧
    (transcribe_audio env audio_id s).db.getAudioFile audio_id =
      some { audio with status := "done" } := by
  have hfb : fallbackTriggered env = true := by
    rcases hdeg with h | h | h
    · simp [fallbackTriggered, h]
    · simp [fallbackTriggered, h, pyTruthy]
    · simp [fallbackTriggered, h, pyTruthy]
  refine ⟨?_, ?_, transcribe_audio_getAudioFile env audio_id s audio h1 h2⟩
  · rw [transcribe_audio_transcriptsFor env audio_id s audio h1 h2]
    simp [finalTranscript, storedText, storedLanguage, storedTextChars, hfb]
  · intro h; simp [pyStrOr, pyTruthy, h]

/-- Concrete instance of C2 at an erroring transcription of audio 1. -/
theorem transcription_fallback_invariant_witness :
    (transcribe_audio wEnvErr 1 wState).db.transcriptsFor 1 =
      [{ id := 1, audio_file_id := 1, language := some "unknown",
         model_name := "base", status := "done",
         text := some "Transcript fallback for audio 1",
         audio_duration_seconds := none, processing_seconds := some 2,
         text_chars := some 31, real_time_factor := none }] ∧
    (transcribe_audio wEnvErr 1 wState).db.getAudioFile 1 =
      some { wAudio with status := "done" } := by
  have h := transcription_fallback_invariant wEnvErr 1 wState wAudio rfl rfl
    (Or.inr (Or.inl rfl))
  exact ⟨by rw [h.1]; decide, h.2.2⟩

/-- Claim C3 (enqueue precondition enforcement): `enqueue_translation`
returns `(false, none)` and leaves the state untouched (no Translation row
created) whenever the parent Transcript row is missing or its status is
not "done"; `enqueue_summary` does the same for a missing or not-"done"
parent Translation. The hypotheses say exactly: IF the parent row is
found, THEN its status is not "done" (so they also cover the missing-row
case vacuously). -/
theorem enqueue_precondition_enforcement (ok ok2 : Bool) (tid uid : Nat)
    (lang lang2 : String) (mn mn2 : Option String) (s : PipeState)
    (ht : ∀ t, s.db.getTranscript tid = some t → t.status ≠ "done")
    (hu : ∀ u, s.db.getTranslation uid = some u → u.status ≠ "done") :
    enqueue_translation ok tid lang mn s = ((false, none), s) ∧
    enqueue_summary ok2 uid lang2 mn2 s = ((false, none), s) := by
  constructor
  · unfold enqueue_translation
    cases hfind : s.db.getTranscript tid with
    | none => rfl
    | some t => simp [ht t hfind]
  · unfold enqueue_summary
    cases hfind : s.db.getTranslation uid with
    | none => rfl
    | some u => simp [hu u hfind]

/-- Concrete instance of C3: missing parents (id 7) and parents in status "processing". -/
theorem enqueue_precondition_enforcement_witness :
    enqueue_translation true 7 "en" none wState = ((false, none), wState) ∧
    enqueue_summary true 7 "ru" none wState = ((false, none), wState) ∧
    enqueue_translation true 1 "en" none wStateProc = ((false, none), wStateProc) ∧
    enqueue_summary true 2 "ru" none wStateProc = ((false, none), wStateProc) := by
  have h1 := enqueue_precondition_enforcement true true 7 7 "en" "ru" none none wState
    (fun t h => nomatch h) (fun u h => nomatch h)
  have h2 := enqueue_precondition_enforcement true true 1 2 "en" "ru" none none wStateProc
    (by intro t h; cases h; decide) (by intro u h; cases h; decide)
  exact ⟨h1.1, h1.2, h2.1, h2.2⟩

/-- Claim C4, counterexample to the claim as stated: the claim says that
when the detected language is not known, no Translation row is created.
Concretely, with the transcribe operation reporting an error and detecting
no language (`language = none`), the fallback stores the sentinel language
`"unknown"`, and the auto-chain check `if lang and lang.lower() != "en"`
then fires: a queued Translation row with `source_language = "unknown"`
and `target_language = "en"` IS created. -/
theorem auto_chain_counterexample :
    wEnvErr.language = none ∧ wEnvErr.text = none ∧
    wEnvErr.error = some "synthetic failure" ∧
    (transcribe_audio wEnvErr 1 wState).db.transcripts.map
      (fun t => t.language) = [some "unknown"] ∧
    (transcribe_audio wEnvErr 1 wState).db.translations.map
      (fun r => (r.transcript_id, r.source_language, r.target_language, r.status)) =
      [(1, some "unknown", "en", "queued")] := by
  refine ⟨rfl, rfl, rfl, ?_, ?_⟩ <;> rfl

/-- Claim C4, amended: after a fresh transcription run, let L be the
language stored on the Transcript (the detected one, or the sentinel
`"unknown"` substituted by the fallback). If L is non-null/non-empty and
differs from "en" case-insensitively (`autoChainCond`) — which includes
the fallback sentinel `"unknown"` — then exactly one Translation row is
created with `source_language = L`, `target_language = "en"` and status
"queued", and a translation task is submitted for it when the submission
succeeds; a failed submission is swallowed (nothing logged to the broker,
the committed row survives) and the transcription stage still ends with
the WorkUnit "done". If L equals "en" case-insensitively or is
empty/null, no Translation row is created. -/
theorem auto_chain_rule_amended (env : TranscribeEnv) (audio_id : Nat)
    (s : PipeState) (audio : AudioFileRow)
    (h1 : s.db.getAudioFile audio_id = some audio)
    (h2 : s.db.transcriptsFor audio_id = []) :
    (autoChainCond (storedLanguage env) = true →
      (transcribe_audio env audio_id s).db.translations =
        s.db.translations ++
          [{ id := s.db.next_id + 1, transcript_id := s.db.next_id,
             source_language := storedLanguage env, target_language := "en",
             model_name := "mt_model", status := "queued", text := none,
             processing_seconds := none, text_chars := none }] ∧
      (env.auto_submit_ok = true →
        (transcribe_audio env audio_id s).submitted =
          s.submitted ++ [("translate", s.db.next_id + 1)]) ∧
      (env.auto_submit_ok = false →
        (transcribe_audio env audio_id s).submitted = s.submitted) ∧
      (transcribe_audio env audio_id s).db.getAudioFile audio_id =
        some { audio with status := "done" }) ∧
    (autoChainCond (storedLanguage env) = false →
      (transcribe_audio env audio_id s).db.translations = s.db.translations) := by
  constructor
  · intro hc
    refine ⟨transcribe_audio_translations_chained env audio_id s audio h1 h2 hc,
      ?_, ?_, transcribe_audio_getAudioFile env audio_id s audio h1 h2⟩
    · intro hs
      rw [transcribe_audio_submitted env audio_id s audio h1 h2]
      simp [hc, hs]
    · intro hs
      rw [transcribe_audio_submitted env audio_id s audio h1 h2]
      simp [hc, hs]
  · exact transcribe_audio_translations_unchained env audio_id s audio h1 h2

/-- Concrete instance of the amended C4: detected language "fr" auto-creates the queued en-translation and submits it. -/
theorem auto_chain_rule_amended_witness :
    autoChainCond (storedLanguage wEnvFr) = true ∧
    (transcribe_audio wEnvFr 1 wState).db.translations =
      [{ id := 2, transcript_id := 1, source_language := some "fr",
         target_language := "en", model_name := "mt_model", status := "queued",
         text := none, processing_seconds := none, text_chars := none }] ∧
    (transcribe_audio wEnvFr 1 wState).submitted = [("translate", 2)] ∧
    autoChainCond (storedLanguage wEnvRu) = true := by
  have h := (auto_chain_rule_amended wEnvFr 1 wState wAudio rfl rfl).1 (by decide)
  exact ⟨by decide, by rw [h.1]; decide, by rw [h.2.1 rfl]; rfl, by decide⟩

/-- Claim C5 (submission-failure handling in direct enqueue): when the
parent is "done" and the child row was committed in "queued" status but
the subsequent task submission throws, `enqueue_translation` and
`enqueue_summary` mark that same row "failed", do not delete it (the
table is the old one plus exactly that row), submit nothing, and still
return the created row's id together with the failure indicator
`(false, some id)`; no exception escapes (the embedding is a total
function). The freshness hypotheses state that the autoincrement id is
not already used, as a real store guarantees. -/
theorem submission_failure_returns_id (tid uid : Nat) (lang lang2 : String)
    (mn mn2 : Option String) (s : PipeState)
    (t : TranscriptRow) (ht : s.db.getTranscript tid = some t)
    (ht2 : t.status = "done")
    (u : TranslationRow) (hu : s.db.getTranslation uid = some u)
    (hu2 : u.status = "done")
    (hfresh : ∀ r ∈ s.db.translations, r.id ≠ s.db.next_id)
    (hfresh2 : ∀ r ∈ s.db.summaries, r.id ≠ s.db.next_id) :
    (enqueue_translation false tid lang mn s).1 = (false, some s.db.next_id) ∧
    (enqueue_translation false tid lang mn s).2.db.translations =
      s.db.translations ++
        [{ id := s.db.next_id, transcript_id := tid,
           source_language := t.language, target_language := lang,
           model_name := pyStrOr mn "mt_model", status := "failed",
           text := none, processing_seconds := none, text_chars := none }] ∧
    (enqueue_translation false tid lang mn s).2.submitted = s.submitted ∧
    (enqueue_summary false uid lang2 mn2 s).1 = (false, some s.db.next_id) ∧
    (enqueue_summary false uid lang2 mn2 s).2.db.summaries =
      s.db.summaries ++
        [{ id := s.db.next_id, source_translation_id := uid,
           base_language := some u.target_language, target_language := lang2,
           model_name := pyStrOr mn2 "summ_model", status := "failed",
           text := none }] ∧
    (enqueue_summary false uid lang2 mn2 s).2.submitted = s.submitted := by
  refine ⟨?_, ?_, ?_, ?_, ?_, ?_⟩ <;>
    simp only [enqueue_translation, enqueue_summary, ht, hu, ht2, hu2, ne_eq,
      not_true_eq_false, if_false, Bool.false_eq_true] <;>
    simp [DB.addTranslation, DB.addSummary, DB.setTranslationStatus,
      DB.setSummaryStatus, DB.updateTranslation, DB.updateSummary]
  · conv_rhs => rw [← List.map_id s.db.translations]
    apply List.map_congr_left
    intro r hr
    simp [hfresh r hr]
  · conv_rhs => rw [← List.map_id s.db.summaries]
    apply List.map_congr_left
    intro r hr
    simp [hfresh2 r hr]

/-- Concrete instance of C5: failed submissions leave rows id 3 marked "failed" and still return the id. -/
theorem submission_failure_returns_id_witness :
    (enqueue_translation false 1 "en" none wStateTU).1 = (false, some 3) ∧
    (enqueue_summary false 2 "ru" none wStateTU).1 = (false, some 3) ∧
    (enqueue_translation false 1 "en" none wStateTU).2.db.translations.map
      (fun r => (r.id, r.status)) = [(2, "done"), (3, "failed")] ∧
    (enqueue_summary false 2 "ru" none wStateTU).2.db.summaries.map
      (fun r => (r.id, r.status)) = [(3, "failed")] := by
  have h := submission_failure_returns_id 1 2 "en" "ru" none none wStateTU
    wTranscriptDone rfl rfl wTranslationDone rfl rfl (by decide) (by decide)
  exact ⟨h.1, h.2.2.2.1, by rw [h.2.1]; rfl, by rw [h.2.2.2.2.1]; rfl⟩

/-- Claim C6 (worker-count computation), for any configuration with
`0 ≤ min_workers ≤ max_workers` and a positive per-worker memory limit:
`calculate_optimal_workers` returns the configured minimum when
auto-scaling is disabled; it always equals the spec's formula
`clamp(floor((available − 4) / per_worker_limit), min_workers,
max_workers)` with the low-memory step-down (the code truncates toward
zero rather than flooring, but the two agree after clamping whenever
`0 ≤ min_workers`); the result always lies within
`[min_workers, max_workers]`; and it is non-decreasing in available
memory when the low-memory threshold is not crossed. -/
theorem worker_count_formula (cfg : MonitorConfig)
    (hmin : 0 ≤ cfg.min_workers) (hmm : cfg.min_workers ≤ cfg.max_workers)
    (hlim : 0 < cfg.worker_memory_limit_gb) :
    (∀ m, cfg.auto_scaling_enabled = false →
      calculate_optimal_workers cfg m = cfg.min_workers) ∧
    (∀ m, calculate_optimal_workers cfg m = target_worker_count_spec cfg m) ∧
    (∀ m, cfg.min_workers ≤ calculate_optimal_workers cfg m ∧
      calculate_optimal_workers cfg m ≤ cfg.max_workers) ∧
    (∀ m1 m2, m1.available_gb ≤ m2.available_gb →
      (m1.available_gb < cfg.memory_threshold_gb ↔
        m2.available_gb < cfg.memory_threshold_gb) →
      calculate_optimal_workers cfg m1 ≤ calculate_optimal_workers cfg m2) := by
  refine ⟨?_, ?_, ?_, ?_⟩
  · intro m h
    simp [calculate_optimal_workers, h]
  · intro m
    unfold calculate_optimal_workers target_worker_count_spec
    cases h : cfg.auto_scaling_enabled
    · rfl
    · simp only [Bool.not_true, Bool.false_eq_true, if_false]
      rw [clamp_pyInt_eq_clamp_floor _ _ _ hmin]
  · intro m
    unfold calculate_optimal_workers
    cases h : cfg.auto_scaling_enabled
    · simp only [Bool.not_false, if_true]
      exact ⟨le_rfl, hmm⟩
    · simp only [Bool.not_true, Bool.false_eq_true, if_false]
      constructor <;> split <;> omega
  · intro m1 m2 hle hiff
    unfold calculate_optimal_workers
    cases h : cfg.auto_scaling_enabled
    · simp
    · simp only [Bool.not_true, Bool.false_eq_true, if_false]
      have hq : (m1.available_gb - 4) / cfg.worker_memory_limit_gb ≤
          (m2.available_gb - 4) / cfg.worker_memory_limit_gb :=
        (div_le_div_iff_of_pos_right hlim).mpr (by linarith)
      have hb := pyInt_mono hq
      by_cases ht : m1.available_gb < cfg.memory_threshold_gb
      · rw [if_pos ht, if_pos (hiff.mp ht)]
        omega
      · rw [if_neg ht, if_neg (fun hh => ht (hiff.mpr hh))]
        omega

/-- Concrete instance of C6 on a 64 GB box: 16 GB available with a 2 GB per-worker limit gives 6 workers, within bounds, monotone from the 8 GB snapshot. -/
theorem worker_count_formula_witness :
    calculate_optimal_workers wCfg wMemHigh = target_worker_count_spec wCfg wMemHigh ∧
    1 ≤ calculate_optimal_workers wCfg wMemHigh ∧
    calculate_optimal_workers wCfg wMemHigh ≤ 8 ∧
    calculate_optimal_workers wCfg wMemMid ≤ calculate_optimal_workers wCfg wMemHigh ∧
    calculate_optimal_workers wCfg wMemHigh = 6 := by
  have h := worker_count_formula wCfg (by decide) (by decide) (by decide)
  refine ⟨h.2.1 wMemHigh, (h.2.2.1 wMemHigh).1, (h.2.2.1 wMemHigh).2,
    h.2.2.2 wMemMid wMemHigh (by decide) (by decide), ?_⟩
  norm_num [calculate_optimal_workers, wCfg, wMemHigh, pyInt]

/-- Claim C7 (reconcile convergence and LIFO stop order): for a live list
with no duplicate handles and a spawn oracle that succeeds, one
`scale_workers` pass with current count C and target T appends exactly
T − C new workers in start order when C < T (reaching length T — in
particular, from 0 live workers it reaches T records); removes exactly
C − T workers from the end of the list (LIFO, most recently started
first) when C > T, leaving the first T workers (in particular, from C
live workers and target 0 it reaches 0); and changes nothing when
C = T. -/
theorem reconcile_convergence (spawn : Nat → Option Proc) (f : Nat → Proc)
    (workers : List Proc) (target : Nat) (hnd : workers.Nodup)
    (hspawn : ∀ i, spawn i = some (f i)) :
    (workers.length = target → scale_workers spawn target workers = workers) ∧
    (workers.length < target →
      scale_workers spawn target workers =
        workers ++ (List.range' workers.length (target - workers.length)).map
          (fun i => f (i + 1)) ∧
      (scale_workers spawn target workers).length = target) ∧
    (target < workers.length →
      scale_workers spawn target workers = workers.take target ∧
      (scale_workers spawn target workers).length = target) := by
  refine ⟨?_, ?_, ?_⟩
  · intro h
    simp [scale_workers, h]
  · intro h
    have heq : scale_workers spawn target workers =
        workers ++ (List.range' workers.length (target - workers.length)).map
          (fun i => f (i + 1)) := by
      unfold scale_workers
      rw [if_neg (by omega), if_pos h]
      exact foldl_start_worker spawn f hspawn _ workers
    refine ⟨heq, ?_⟩
    rw [heq]
    simp only [List.length_append, List.length_map, List.length_range']
    omega
  · intro h
    have heq : scale_workers spawn target workers = workers.take target := by
      unfold scale_workers
      rw [if_neg (by omega), if_neg (by omega)]
      rw [stopLastN_eq_take _ _ hnd]
      congr 1
      omega
    refine ⟨heq, ?_⟩
    rw [heq, List.length_take]
    omega

/-- Concrete instance of C7: 0 → 3 workers appended in order, 3 → 0 removes all, 3 → 3 is a no-op, 3 → 2 stops the most recent. -/
theorem reconcile_convergence_witness :
    scale_workers wSpawn 3 [] = [wProc 1, wProc 2, wProc 3] ∧
    (scale_workers wSpawn 3 []).length = 3 ∧
    scale_workers wSpawn 0 [wProc 1, wProc 2, wProc 3] = [] ∧
    scale_workers wSpawn 3 [wProc 1, wProc 2, wProc 3] =
      [wProc 1, wProc 2, wProc 3] ∧
    scale_workers wSpawn 2 [wProc 1, wProc 2, wProc 3] = [wProc 1, wProc 2] := by
  have h0 := reconcile_convergence wSpawn wProc [] 3 List.nodup_nil (fun i => rfl)
  have h3 := reconcile_convergence wSpawn wProc [wProc 1, wProc 2, wProc 3] 0
    (by decide) (fun i => rfl)
  have h3b := reconcile_convergence wSpawn wProc [wProc 1, wProc 2, wProc 3] 3
    (by decide) (fun i => rfl)
  have h3c := reconcile_convergence wSpawn wProc [wProc 1, wProc 2, wProc 3] 2
    (by decide) (fun i => rfl)
  refine ⟨?_, (h0.2.1 (by decide)).2, ?_, h3b.1 rfl, ?_⟩
  · rw [(h0.2.1 (by decide)).1]; rfl
  · rw [(h3.2.2 (by decide)).1]; rfl
  · rw [(h3c.2.2 (by decide)).1]; rfl

/-- Claim C8 (stop_worker always removes the handle): for any handle in
the duplicate-free live list, after `stop_worker` the handle is no longer
in the live list, regardless of which path was taken — and the path taken
is graceful exactly when the process exits within the grace period after
SIGTERM, forced kill otherwise. -/
theorem stop_worker_always_removes (p : Proc) (workers : List Proc)
    (hnd : workers.Nodup) (hmem : p ∈ workers) :
    p ∉ (stop_worker p workers).2 ∧
    ((stop_worker p workers).1 = StopPath.graceful ↔ p.graceful_exit = true) := by
  constructor
  · simp only [stop_worker, hmem, if_true]
    exact List.Nodup.not_mem_erase hnd
  · simp only [stop_worker]
    cases h : p.graceful_exit <;> simp [h]

/-- Concrete instance of C8: a force-killed worker and a graceful one are both removed. -/
theorem stop_worker_always_removes_witness :
    wProcStuck ∉ (stop_worker wProcStuck [wProc 1, wProcStuck]).2 ∧
    ((stop_worker wProcStuck [wProc 1, wProcStuck]).1 = StopPath.graceful ↔
      wProcStuck.graceful_exit = true) ∧
    wProc 1 ∉ (stop_worker (wProc 1) [wProc 1, wProcStuck]).2 ∧
    (stop_worker (wProc 1) [wProc 1, wProcStuck]).1 = StopPath.graceful := by
  have h1 := stop_worker_always_removes wProcStuck [wProc 1, wProcStuck]
    (by decide) (by decide)
  have h2 := stop_worker_always_removes (wProc 1) [wProc 1, wProcStuck]
    (by decide) (by decide)
  exact ⟨h1.1, h1.2, h2.1, h2.2.mpr rfl⟩

/-- Claim C9 (no idempotency guard on translation/summarization): for any
existing Translation row — whatever its current status, including "done"
and "failed" — `translate_transcript` unconditionally re-executes,
overwriting text, metrics and status to "done" with a fresh placeholder;
`summarize_translation` behaves the same way for every existing Summary
row (overwriting its text and status). -/
theorem translation_summary_no_idempotency_guard (proc : ℚ) (tid uid : Nat)
    (s : PipeState)
    (tr : TranslationRow) (htr : s.db.getTranslation tid = some tr)
    (sm : SummaryRow) (hsm : s.db.getSummary uid = some sm) :
    (translate_transcript proc tid s).db.translations =
      s.db.translations.map (fun r =>
        if r.id = tid then
          { r with
            text := some ("Translation placeholder (target=" ++
              tr.target_language ++ ")"),
            status := "done", processing_seconds := some proc,
            text_chars := some ("Translation placeholder (target=" ++
              tr.target_language ++ ")").length }
        else r) ∧
    (summarize_translation uid s).db.summaries =
      s.db.summaries.map (fun r =>
        if r.id = uid then
          { r with
            text := some ("Summary placeholder (target=" ++
              sm.target_language ++ ")"),
            status := "done" }
        else r) := by
  constructor
  · unfold translate_transcript
    rw [htr]
    simp only [DB.updateTranslation, List.map_map]
    apply List.map_congr_left
    intro r hr
    by_cases h : r.id = tid <;> simp [h, Function.comp]
  · unfold summarize_translation
    rw [hsm]
    simp only [DB.updateSummary, List.map_map]
    apply List.map_congr_left
    intro r hr
    by_cases h : r.id = uid <;> simp [h, Function.comp]

/-- Concrete instance of C9: a "failed" Translation and a "done" Summary are both re-executed to fresh "done" placeholders. -/
theorem translation_summary_no_idempotency_guard_witness :
    wTranslationFailed.status = "failed" ∧ wSummaryDone.status = "done" ∧
    (translate_transcript 1 2 wStateC9).db.translations.map
      (fun r => (r.id, r.status, r.text)) =
      [(2, "done", some "Translation placeholder (target=en)")] ∧
    (summarize_translation 3 wStateC9).db.summaries.map
      (fun r => (r.id, r.status, r.text)) =
      [(3, "done", some "Summary placeholder (target=ru)")] := by
  have h := translation_summary_no_idempotency_guard 1 2 3 wStateC9
    wTranslationFailed rfl wSummaryDone rfl
  exact ⟨rfl, rfl, by rw [h.1]; rfl, by rw [h.2]; rfl⟩

/-- Claim C10, counterexample to the claim as stated: the claim says that
when the detected language equals the chain's target language no
Translation row is created. Running the full chain with target "ru" on
audio whose detected language is "ru": the chain does skip its own
translation and summarization steps (status "completed", no errors,
`translation_id`/`summary_id` unset) — but the transcription stage's
auto-chain still creates a queued Translation row (ru → "en") during the
chain invocation, so the state does gain a Translation row. -/
theorem chain_skip_counterexample :
    wState.db.translations = [] ∧
    (process_audio_file_chain wChainEnvRu 1 "ru" wState).2.db.transcripts.map
      (fun t => (t.language, t.status)) = [(some "ru", "done")] ∧
    (process_audio_file_chain wChainEnvRu 1 "ru" wState).1.status = "completed" ∧
    (process_audio_file_chain wChainEnvRu 1 "ru" wState).1.errors = [] ∧
    (process_audio_file_chain wChainEnvRu 1 "ru" wState).1.translation_id = none ∧
    (process_audio_file_chain wChainEnvRu 1 "ru" wState).1.summary_id = none ∧
    (process_audio_file_chain wChainEnvRu 1 "ru" wState).2.db.translations.map
      (fun r => (r.source_language, r.target_language, r.status)) =
      [(some "ru", "en", "queued")] := by
  refine ⟨rfl, ?_, ?_, ?_, ?_, ?_, ?_⟩ <;> rfl

/-- Claim C10, amended: in full-chain mode, when the language stored on
the fresh transcript equals the chain's target language, the chain skips
both its translation and its summarization step: the chain adds nothing
beyond what the transcription stage itself wrote (the final state is
exactly the post-transcription state), no Summary row is ever created,
`translation_id` and `summary_id` stay unset, and the chain reports
status "completed" with an empty error list. No Translation row at all is
created in the case where the transcription auto-chain does not fire
(e.g. target language "en"); otherwise the only Translation row is the
auto-chain's queued "en" translation. -/
theorem chain_skip_amended (cenv : ChainEnv) (audio_id : Nat)
    (target_language : String) (s : PipeState) (audio : AudioFileRow)
    (h1 : s.db.getAudioFile audio_id = some audio)
    (h2 : s.db.transcriptsFor audio_id = [])
    (hL : storedLanguage cenv.tenv = some target_language) :
    (process_audio_file_chain cenv audio_id target_language s).1 =
      { audio_id := audio_id, transcript_id := some s.db.next_id,
        translation_id := none, summary_id := none,
        status := "completed", errors := [] } ∧
    (process_audio_file_chain cenv audio_id target_language s).2 =
      transcribe_audio cenv.tenv audio_id s ∧
    (transcribe_audio cenv.tenv audio_id s).db.summaries = s.db.summaries ∧
    (autoChainCond (storedLanguage cenv.tenv) = false →
      (transcribe_audio cenv.tenv audio_id s).db.translations = s.db.translations) := by
  have hfor := transcribe_audio_transcriptsFor cenv.tenv audio_id s audio h1 h2
  have hred : process_audio_file_chain cenv audio_id target_language s =
      ({ audio_id := audio_id, transcript_id := some s.db.next_id,
         translation_id := none, summary_id := none,
         status := "completed", errors := [] },
       transcribe_audio cenv.tenv audio_id s) := by
    unfold process_audio_file_chain
    simp only [hfor]
    simp [finalTranscript, hL]
  exact ⟨by rw [hred], by rw [hred],
    transcribe_audio_summaries cenv.tenv audio_id s,
    transcribe_audio_translations_unchained cenv.tenv audio_id s audio h1 h2⟩

/-! ### Concrete fixtures for witnesses and counterexamples -/

/-- Concrete instance of the amended C10: a ru-chain over ru-audio completes with no chain-created rows. -/
theorem chain_skip_amended_witness :
    (process_audio_file_chain wChainEnvRu 1 "ru" wState).1 =
      { audio_id := 1, transcript_id := some 1, translation_id := none,
        summary_id := none, status := "completed", errors := [] } ∧
    (process_audio_file_chain wChainEnvRu 1 "ru" wState).2 =
      transcribe_audio wEnvRu 1 wState ∧
    (transcribe_audio wEnvRu 1 wState).db.summaries = [] := by
  have h := chain_skip_amended wChainEnvRu 1 "ru" wState wAudio rfl rfl (by decide)
  exact ⟨h.1, h.2.1, h.2.2.1⟩
